import Mathlib

/-!
# Verification of the research agent (src/agent.py)

A shallow embedding of the single-file research agent into Lean 4.

Modelling conventions:
* Python strings are `String`; `s[:n]` is `pyTake s n` (slicing by code
  points, which is what Python does); `s.strip()` is `pyStrip`;
  `s.lower()` is `pyLower` (the agent only matches ASCII keywords).
* Parsed JSON values (`json.loads` output) are the inductive type `Json`.
  Python truthiness of a JSON value is `Json.truthy`; `dict.get` is
  `Json.getD` / the string- and int-reading variants.  Values of an
  unexpected runtime type are read as missing (the Python code would
  raise on them; no claim depends on that corner).
* The network is an oracle `FetchEnv : String → Except String Json`
  mapping a URL to either the parsed JSON body (`.ok`) or an exception
  with its message (`.error`).  `fetch_url` turns that into the
  `Option` result the Python function returns after its `try/except`.
* Each search source returns `List Result × List String`: the results
  and the ordered trace of URLs it handed to the network, so that
  "makes no outbound call" and "is attempted exactly once" are
  statable.
* The LLM is an oracle as well: `TermsEnv` maps the user question to
  the parsed JSON of the model reply (an `.error` covers both a raised
  API call and an unparsable reply, which the Python code catches
  alike), and `AiEnv` maps (system prompt, user prompt) to the raw
  reply text.  `analyze_with_ai` also returns the trace of prompts it
  actually sent.
* `print` calls are omitted: they write to the console and touch no
  state the claims mention.
-/

/-- Python `s[:n]`: the first `n` code points of `s`. -/
def pyTake (s : String) (n : Nat) : String := ⟨s.data.take n⟩

/-- Python `s.lower()` (ASCII letters, which covers every keyword the
agent matches). -/
def pyLower (s : String) : String := ⟨s.data.map Char.toLower⟩

/-- Python `s.strip()`: drop leading and trailing whitespace. -/
def pyStrip (s : String) : String :=
  ⟨(((s.data.dropWhile Char.isWhitespace).reverse.dropWhile Char.isWhitespace).reverse)⟩

/-- Tests whether `needle` occurs contiguously inside `hay`. -/
def hasInfix (needle : List Char) : List Char → Bool
  | [] => needle.isPrefixOf []
  | c :: rest => needle.isPrefixOf (c :: rest) || hasInfix needle rest

/-- Python `sub in s` on strings. -/
def strContains (s sub : String) : Bool := hasInfix sub.data s.data

/-- Parsed JSON values, the output of `json.loads`. -/
inductive Json where
  | null
  | bool (b : Bool)
  | num (n : Int)
  | str (s : String)
  | arr (items : List Json)
  | obj (fields : List (String × Json))

/-- Python truthiness of a JSON value. -/
def Json.truthy : Json → Bool
  | .null => false
  | .bool b => b
  | .num n => n != 0
  | .str s => s != ""
  | .arr items => !items.isEmpty
  | .obj fields => !fields.isEmpty

/-- Python `d.get(k)` on a dict: `none` when the key is missing (or the
value is not a dict). -/
def Json.lookup : Json → String → Option Json
  | .obj fields, k => List.lookup k fields
  | _, _ => none

/-- Python `d.get(k, default)`. -/
def Json.getD (j : Json) (k : String) (d : Json) : Json := (j.lookup k).getD d

/-- Python `k in d` on a dict. -/
def Json.hasKey (j : Json) (k : String) : Bool := (j.lookup k).isSome

/-- Read a string field, `d.get(k, default)` with a string default. -/
def Json.getStrD (j : Json) (k : String) (d : String) : String :=
  match j.lookup k with
  | some (.str s) => s
  | _ => d

/-- Read an integer field, `d.get(k, default)` with an int default. -/
def Json.getIntD (j : Json) (k : String) (d : Int) : Int :=
  match j.lookup k with
  | some (.num n) => n
  | _ => d

/-- A JSON value as a list (empty when it is not a list). -/
def Json.asArr : Json → List Json
  | .arr items => items
  | _ => []

/-- A JSON value as a string (empty when it is not a string). -/
def Json.asStr : Json → String
  | .str s => s
  | _ => ""

/-- Python `len` on a JSON value (lists, dicts and strings). -/
def Json.pyLen : Json → Nat
  | .arr items => items.length
  | .obj fields => fields.length
  | .str s => s.length
  | _ => 0

/-- A search result: the dict
`{"title": ..., "summary": ..., "url": ..., "source": ...}`. -/
structure Result where
  title : String
  summary : String
  url : String
  source : String
deriving DecidableEq, Repr

/-- One entry of `ResearchMemory.history`, the dict stored by
`add_round`.  `analysis` is `none` when the Python value is `None`. -/
structure RoundData where
  question : String
  category : String
  result_count : Nat
  analysis : Option String
deriving DecidableEq, Repr

/-- The `ResearchMemory` class: the session memory object. -/
structure ResearchMemory where
  history : List RoundData
  all_results : List Result
deriving DecidableEq, Repr

/-- Constructor `ResearchMemory()`: both lists start empty. -/
def ResearchMemory.init : ResearchMemory := ⟨[], []⟩

/-- Method `ResearchMemory.add_round`: store a completed round.  The
call `m.add_round(q, c, rs, a)` becomes the state it leaves behind. -/
def ResearchMemory.add_round (m : ResearchMemory) (question category : String)
    (results : List Result) (analysis : Option String) : ResearchMemory :=
  { history := m.history ++ [{ question := question, category := category,
                               result_count := results.length, analysis := analysis }],
    all_results := m.all_results ++ results }

/-- The text `get_context` adds for round number `i` (the body of its
`for` loop). -/
def round_block (i : Nat) (r : RoundData) : String :=
  "\n--- Round " ++ toString i ++ " ---\n"
    ++ "Question: " ++ r.question ++ "\n"
    ++ "Category: " ++ r.category ++ "\n"
    ++ "Results found: " ++ toString r.result_count ++ "\n"
    ++ (match r.analysis with
        | some a => if a != "" then "Analysis summary: " ++ pyTake a 500 ++ "...\n" else ""
        | none => "")

/-- The `for i, round_data in enumerate(self.history, start=1)` loop of
`get_context`, accumulating the per-round blocks. -/
def context_loop : Nat → List RoundData → String
  | _, [] => ""
  | i, r :: rest => round_block i r ++ context_loop (i + 1) rest

/-- Method `ResearchMemory.get_context`: it returns its text and (being
a Python method on `self`) the state it leaves behind. -/
def ResearchMemory.get_context (m : ResearchMemory) : ResearchMemory × String :=
  if m.history.isEmpty then (m, "")
  else (m, "\n\nPREVIOUS RESEARCH IN THIS SESSION:\n" ++ context_loop 1 m.history)

/-- Method `ResearchMemory.get_round_count`. -/
def ResearchMemory.get_round_count (m : ResearchMemory) : ResearchMemory × Nat :=
  (m, m.history.length)

/-- Function `get_question`: read a line, strip it, and return `None` on an empty
result.  The `input()` line is the argument. -/
def get_question (input_line : String) : Option String :=
  let question := pyStrip input_line
  if question == "" then none else some question

/-- The keyword → category table of `categorize_question`, in the
insertion (iteration) order of the Python dict. -/
def categories : List (String × String) :=
  [("competitor", "Competitor Analysis"),
   ("market", "Market Research"),
   ("trend", "Trend Analysis"),
   ("startup", "Startup Research"),
   ("price", "Pricing Research"),
   ("customer", "Customer Research"),
   ("invest", "Investment Research"),
   ("fund", "Funding Research")]

/-- The `for keyword, category in categories.items()` loop with its
early `return`. -/
def categorize_loop (question_lower : String) : List (String × String) → String
  | [] => "General Business Research"
  | (keyword, category) :: rest =>
    if strContains question_lower keyword then category
    else categorize_loop question_lower rest

/-- Function `categorize_question`: keyword scan over the lowercased
question. -/
def categorize_question (question : String) : String :=
  categorize_loop (pyLower question) categories


/-- An uppercase hexadecimal digit. -/
def hexDigit (n : Nat) : Char :=
  if n < 10 then Char.ofNat (48 + n) else Char.ofNat (55 + n)

/-- UTF-8 encoding of one code point. -/
def utf8Bytes (n : Nat) : List Nat :=
  if n < 128 then [n]
  else if n < 2048 then [192 + n / 64, 128 + n % 64]
  else if n < 65536 then [224 + n / 4096, 128 + (n / 64) % 64, 128 + n % 64]
  else [240 + n / 262144, 128 + (n / 4096) % 64, 128 + (n / 64) % 64, 128 + n % 64]

/-- Percent-encode one character as `urllib.parse.quote` does (default
safe set: alphanumerics, underscore, dot, dash,
tilde and slash). -/
def quoteChar (c : Char) : List Char :=
  if c.isAlphanum || c == '_' || c == '.' || c == '-' || c == '~' || c == '/' then [c]
  else (utf8Bytes c.toNat).flatMap (fun b => ['%', hexDigit (b / 16), hexDigit (b % 16)])

/-- Python `urllib.parse.quote`. -/
def quote (s : String) : String := ⟨s.data.flatMap quoteChar⟩

/-- The network: a URL either yields the parsed JSON body of the
response, or raises an exception carrying a message. -/
abbrev FetchEnv := String → Except String Json

/-- Python `os.environ`: `none` when a variable is unset. -/
abbrev EnvVars := String → Option String

/-- Function `fetch_url`: perform the request and parse; the `try/except` turns
any raised exception into `None`. -/
def fetch_url (env : FetchEnv) (url : String) : Option Json :=
  match env url with
  | .ok j => some j
  | .error _ => none

/-- The Wikipedia opensearch URL built by `search_wikipedia`. -/
def wiki_search_url (query : String) : String :=
  "https://en.wikipedia.org/w/api.php?action=opensearch&search=" ++ quote query
    ++ "&limit=3&format=json"

/-- The per-title Wikipedia summary URL built by `search_wikipedia`. -/
def wiki_summary_url (title : String) : String :=
  "https://en.wikipedia.org/api/rest_v1/page/summary/" ++ quote title

/-- The body of the `for title, url in zip(...)` loop of `search_wikipedia`:
the result contributed for one title, `none` when the summary fetch
fails or has no extract. -/
def wiki_item (env : FetchEnv) (title url : String) : Option Result :=
  match fetch_url env (wiki_summary_url title) with
  | some summary_data =>
    if summary_data.truthy && summary_data.hasKey "extract" then
      let summary := (summary_data.getD "extract" Json.null).asStr
      let summary := if 300 < summary.length then pyTake summary 300 ++ "..." else summary
      some { title := title, summary := summary, url := url, source := "Wikipedia" }
    else none
  | none => none

/-- The title loop of `search_wikipedia`, also tracing the summary URLs it
fetches (one fetch per zipped pair). -/
def wiki_loop (env : FetchEnv) : List (Json × Json) → List Result × List String
  | [] => ([], [])
  | (t, u) :: rest =>
    let tail := wiki_loop env rest
    match wiki_item env t.asStr u.asStr with
    | some r => (r :: tail.1, wiki_summary_url t.asStr :: tail.2)
    | none => (tail.1, wiki_summary_url t.asStr :: tail.2)

/-- Function `search_wikipedia`: opensearch, then one summary fetch per
title. -/
def search_wikipedia (env : FetchEnv) (query : String) : List Result × List String :=
  let search_url := wiki_search_url query
  match fetch_url env search_url with
  | none => ([], [search_url])
  | some search_data =>
    if search_data.pyLen < 4 then ([], [search_url])
    else
      let titles := (search_data.asArr.getD 1 Json.null).asArr
      let urls := (search_data.asArr.getD 3 Json.null).asArr
      let loop := wiki_loop env (titles.zip urls)
      (loop.1, search_url :: loop.2)

/-- The DuckDuckGo instant-answer URL built by `search_duckduckgo`. -/
def ddg_url (query : String) : String :=
  "https://api.duckduckgo.com/?q=" ++ quote query ++ "&format=json&no_html=1"

/-- The abstract-derived result of `search_duckduckgo` (at most one). -/
def ddg_abstract (data : Json) : List Result :=
  if (data.getD "Abstract" Json.null).truthy then
    let abstract := (data.getD "Abstract" Json.null).asStr
    [{ title := data.getStrD "Heading" "DuckDuckGo Result",
       summary := if 300 < abstract.length then pyTake abstract 300 ++ "..." else abstract,
       url := data.getStrD "AbstractURL" "",
       source := "DuckDuckGo" }]
  else []

/-- The `for topic in data.get("RelatedTopics", [])[:3]` loop of
`search_duckduckgo`. -/
def ddg_topics_loop : List Json → List Result
  | [] => []
  | topic :: rest =>
    if topic.hasKey "Text" then
      { title := pyTake (topic.getStrD "Text" "") 80,
        summary := topic.getStrD "Text" "",
        url := topic.getStrD "FirstURL" "",
        source := "DuckDuckGo" } :: ddg_topics_loop rest
    else ddg_topics_loop rest

/-- Function `search_duckduckgo`: a single fetch; abstract result first, then up
to three related topics. -/
def search_duckduckgo (env : FetchEnv) (query : String) : List Result × List String :=
  let url := ddg_url query
  match fetch_url env url with
  | none => ([], [url])
  | some data =>
    (ddg_abstract data
       ++ ddg_topics_loop ((data.getD "RelatedTopics" (Json.arr [])).asArr.take 3),
     [url])

/-- The Reddit search URL built by `search_reddit`. -/
def reddit_url (query : String) : String :=
  "https://www.reddit.com/search.json?q=" ++ quote query ++ "&sort=relevance&limit=3&t=year"

/-- The result `search_reddit` builds from one post. -/
def reddit_post (post : Json) : Result :=
  let post_data := post.getD "data" (Json.obj [])
  let title := post_data.getStrD "title" "No title"
  let selftext := post_data.getStrD "selftext" ""
  let subreddit := post_data.getStrD "subreddit" "unknown"
  let permalink := post_data.getStrD "permalink" ""
  let score := post_data.getIntD "score" 0
  let num_comments := post_data.getIntD "num_comments" 0
  let summary := "r/" ++ subreddit ++ " | " ++ toString score ++ " upvotes | "
      ++ toString num_comments ++ " comments"
  let summary := if selftext != "" then
      summary ++ "\n      "
        ++ (if 200 < selftext.length then pyTake selftext 200 ++ "..." else selftext)
    else summary
  { title := title, summary := summary, url := "https://www.reddit.com" ++ permalink,
    source := "Reddit" }

/-- Function `search_reddit`: its own `try/except` around a single fetch, then one
result per post. -/
def search_reddit (env : FetchEnv) (query : String) : List Result × List String :=
  let url := reddit_url query
  match env url with
  | .error _ => ([], [url])
  | .ok data =>
    (((data.getD "data" (Json.obj [])).getD "children" (Json.arr [])).asArr.map reddit_post,
     [url])

/-- The NewsAPI URL built by `search_news`. -/
def news_url (query api_key : String) : String :=
  "https://newsapi.org/v2/everything?q=" ++ quote query
    ++ "&sortBy=relevancy&pageSize=3&apiKey=" ++ api_key

/-- The check `search_news` makes on the response: the negation of
`data.get("status") != "ok"`. -/
def news_status_ok (data : Json) : Bool :=
  match data.lookup "status" with
  | some (.str s) => s == "ok"
  | _ => false

/-- The result `search_news` builds from one article. -/
def news_article (article : Json) : Result :=
  let title := article.getStrD "title" "No title"
  let description := article.getStrD "description" "No description available."
  let source_name := (article.getD "source" (Json.obj [])).getStrD "name" "Unknown"
  let article_url := article.getStrD "url" ""
  let published := pyTake (article.getStrD "publishedAt" "") 10
  let summary := "[" ++ source_name ++ "] (" ++ published ++ ") " ++ description
  let summary := if 300 < summary.length then pyTake summary 300 ++ "..." else summary
  { title := title, summary := summary, url := article_url, source := "NewsAPI" }

/-- Function `search_news`: returns immediately (fetching nothing) when
`NEWSAPI_KEY` is unset or empty; otherwise a single fetch. -/
def search_news (env : FetchEnv) (getenv : EnvVars) (query : String) :
    List Result × List String :=
  let api_key := (getenv "NEWSAPI_KEY").getD ""
  if api_key == "" then ([], [])
  else
    let url := news_url query api_key
    match fetch_url env url with
    | none => ([], [url])
    | some data =>
      if !news_status_ok data then ([], [url])
      else (((data.getD "articles" (Json.arr [])).asArr.take 3).map news_article, [url])

/-- Function `gather_results`: all four sources in order, results and fetch
traces concatenated. -/
def gather_results (env : FetchEnv) (getenv : EnvVars) (query : String) :
    List Result × List String :=
  let w := search_wikipedia env query
  let d := search_duckduckgo env query
  let r := search_reddit env query
  let n := search_news env getenv query
  (w.1 ++ d.1 ++ r.1 ++ n.1, w.2 ++ d.2 ++ r.2 ++ n.2)

/-- The term-generation LLM as an oracle: the user question maps to the
parsed JSON of the model reply; `.error` covers both a raised API call
and an unparsable reply (the Python `try` catches both alike). -/
abbrev TermsEnv := String → Except String Json

/-- The analysis LLM as an oracle: (system prompt, user prompt) map to
the reply text, or to a raised exception. -/
abbrev AiEnv := String → String → Except String String

/-- Python `isinstance(terms, list) and all(isinstance(t, str) for t in
terms)`, returning the strings when it holds. -/
def asStringList : Json → Option (List String)
  | .arr items => items.mapM (fun j => match j with | .str s => some s | _ => none)
  | _ => none

/-- Function `generate_search_terms`: `[question]` unless the package is present,
the key is set, the call succeeds and the reply is a JSON list of
strings. -/
def generate_search_terms (has_anthropic : Bool) (getenv : EnvVars) (env : TermsEnv)
    (question : String) : List String :=
  if !has_anthropic || (getenv "ANTHROPIC_API_KEY").getD "" == "" then [question]
  else
    match env question with
    | .error _ => [question]
    | .ok terms =>
      match asStringList terms with
      | some ts => ts
      | none => [question]

/-- The text `analyze_with_ai` adds for result number `i` (the body of
its `for` loop). -/
def result_block (i : Nat) (r : Result) : String :=
  "\n--- Result " ++ toString i ++ " ---\n"
    ++ "Title: " ++ r.title ++ "\n"
    ++ "Source: " ++ r.source ++ "\n"
    ++ "Summary: " ++ r.summary ++ "\n"
    ++ "URL: " ++ r.url ++ "\n"

/-- The `for i, result in enumerate(results, start=1)` loop of
`analyze_with_ai`. -/
def results_text_loop : Nat → List Result → String
  | _, [] => ""
  | i, r :: rest => result_block i r ++ results_text_loop (i + 1) rest

/-- The fixed system prompt of `analyze_with_ai`. -/
def analyze_system_prompt : String :=
  "You are a business research analyst. Your job is to analyze
research results and provide clear, actionable insights.

Always structure your response with these sections:
1. SUMMARY — A brief overview of what the research found (2-3 sentences)
2. KEY FINDINGS — Bullet points of the most important facts
3. DIFFERENT VIEWPOINTS — If the sources show different perspectives, highlight them
4. ACTION PLAN — 3-5 concrete next steps the user could take based on the research
5. SUGGESTED FOLLOW-UPS — 2-3 follow-up questions the user could ask next

Keep your response concise and focused on business value.

IMPORTANT: If the search results are empty, limited, or not relevant,
use your own knowledge to answer the question as best you can.
Clearly note which information comes from search results vs your
own knowledge. Still provide all 5 sections above.

If previous research context is provided, reference it and build on it
rather than repeating the same information."

/-- The user prompt of `analyze_with_ai`: one shape when results were
gathered, another when the sources returned nothing. -/
def analyze_user_prompt (question category memory_context results_text : String) : String :=
  if results_text != "" then
    "Research Question: " ++ question ++ "\nCategory: " ++ category ++ "\n" ++ memory_context
      ++ "\n\nHere are the research results I gathered from multiple sources:\n" ++ results_text
      ++ "\n\nPlease analyze these results and provide your structured analysis."
  else
    "Research Question: " ++ question ++ "\nCategory: " ++ category ++ "\n" ++ memory_context
      ++ "\n\nMy search sources returned no results for this query.\nPlease use your own knowledge to answer this research question\nas thoroughly as you can. Provide your structured analysis."

/-- Function `analyze_with_ai`: `None` without touching the API when the package
is missing or the key unset/empty; otherwise one call whose raised
exception also yields `None`.  The second component traces the
(system, user) prompts actually sent. -/
def analyze_with_ai (has_anthropic : Bool) (getenv : EnvVars) (env : AiEnv)
    (question : String) (results : List Result) (category : String)
    (memory : ResearchMemory) : Option String × List (String × String) :=
  if !has_anthropic then (none, [])
  else if (getenv "ANTHROPIC_API_KEY").getD "" == "" then (none, [])
  else
    let results_text := results_text_loop 1 results
    let memory_context := (memory.get_context).2
    let user_prompt := analyze_user_prompt question category memory_context results_text
    match env analyze_system_prompt user_prompt with
    | .ok text => (some text, [(analyze_system_prompt, user_prompt)])
    | .error _ => (none, [(analyze_system_prompt, user_prompt)])

/-- The deduplication loop of `research_round` (`seen_urls` /
`unique_results`), with the membership set carried as a list. -/
def dedupe_loop : List String → List Result → List Result
  | _, [] => []
  | seen_urls, result :: rest =>
    if result.url ∈ seen_urls then dedupe_loop seen_urls rest
    else result :: dedupe_loop (result.url :: seen_urls) rest

/-- The deduplication step of `research_round`, started with
`seen_urls = set()` and `unique_results = []`. -/
def dedupeByUrl (results : List Result) : List Result := dedupe_loop [] results

/-- The `for term in search_terms` loop of `research_round`, extending
`all_results` with the results gathered for each term. -/
def search_terms_loop (env : FetchEnv) (getenv : EnvVars) : List String → List Result
  | [] => []
  | term :: rest => (gather_results env getenv term).1 ++ search_terms_loop env getenv rest

/-- Function `research_round`: categorize, generate terms, gather, dedupe,
analyze, and store; returns the memory it leaves behind. -/
def research_round (has_anthropic : Bool) (getenv : EnvVars) (fetch_env : FetchEnv)
    (terms_env : TermsEnv) (ai_env : AiEnv) (question : String)
    (memory : ResearchMemory) : ResearchMemory :=
  let category := categorize_question question
  let search_terms := generate_search_terms has_anthropic getenv terms_env question
  let all_results := search_terms_loop fetch_env getenv search_terms
  let unique_results := dedupeByUrl all_results
  let all_results := unique_results
  let analysis := (analyze_with_ai has_anthropic getenv ai_env question all_results
      category memory).1
  memory.add_round question category all_results analysis

/-- A 350-character text, longer than the 300-character truncation
threshold. -/
def c2_text : String := ⟨List.replicate 350 'a'⟩

/-- A DuckDuckGo response whose only content is a related topic with a
350-character `Text`. -/
def c2_json : Json :=
  Json.obj [("RelatedTopics", Json.arr
    [Json.obj [("Text", Json.str c2_text), ("FirstURL", Json.str "https://example.com/x")]])]

/-- A network where only the DuckDuckGo query `q` succeeds, answering
`c2_json`. -/
def c2_env : FetchEnv := fun url =>
  if url = ddg_url "q" then Except.ok c2_json else Except.error "offline"

/-- A Wikipedia opensearch response listing two titles `A` and `B`. -/
def c3_search_data : Json :=
  Json.arr [Json.str "q",
    Json.arr [Json.str "A", Json.str "B"],
    Json.arr [Json.str "", Json.str ""],
    Json.arr [Json.str "https://en.wikipedia.org/wiki/A",
      Json.str "https://en.wikipedia.org/wiki/B"]]

/-- A network where the opensearch and the summary fetch for `B`
succeed but the summary fetch for `A` raises. -/
def c3_env : FetchEnv := fun url =>
  if url = wiki_search_url "q" then Except.ok c3_search_data
  else if url = wiki_summary_url "B" then
    Except.ok (Json.obj [("extract", Json.str "E")])
  else Except.error "boom"

/-- A network where the Wikipedia pipeline for query `q` fully succeeds
with one title `T`. -/
def w2_env : FetchEnv := fun url =>
  if url = wiki_search_url "q" then
    Except.ok (Json.arr [Json.str "q", Json.arr [Json.str "T"], Json.arr [Json.str ""],
      Json.arr [Json.str "https://en.wikipedia.org/wiki/T"]])
  else if url = wiki_summary_url "T" then
    Except.ok (Json.obj [("extract", Json.str "hello")])
  else Except.error "offline"

/- Helper lemmas about the deduplication loop. -/

theorem dedupe_loop_sublist (seen : List String) (l : List Result) :
    List.Sublist (dedupe_loop seen l) l := by
  induction l generalizing seen with
  | nil => simp [dedupe_loop]
  | cons r rest ih =>
    simp only [dedupe_loop]
    split
    · exact (ih seen).cons r
    · exact (ih _).cons₂ r

theorem mem_dedupe_loop_not_seen (seen : List String) (l : List Result) (r : Result)
    (h : r ∈ dedupe_loop seen l) : r.url ∉ seen := by
  induction l generalizing seen with
  | nil => simp [dedupe_loop] at h
  | cons a rest ih =>
    simp only [dedupe_loop] at h
    split at h
    · exact ih seen h
    · rcases List.mem_cons.mp h with h1 | h2
      · subst h1; assumption
      · have hr := ih _ h2
        exact fun hs => hr (List.mem_cons_of_mem _ hs)

theorem dedupe_loop_nodup (seen : List String) (l : List Result) :
    ((dedupe_loop seen l).map Result.url).Nodup := by
  induction l generalizing seen with
  | nil => simp [dedupe_loop]
  | cons a rest ih =>
    simp only [dedupe_loop]
    split
    · exact ih seen
    · simp only [List.map_cons, List.nodup_cons]
      refine ⟨?_, ih _⟩
      intro hmem
      rcases List.mem_map.mp hmem with ⟨r, hr, hurl⟩
      exact mem_dedupe_loop_not_seen _ _ _ hr (hurl ▸ List.mem_cons_self _ _)

theorem dedupe_loop_find (seen : List String) (l : List Result) (u : String)
    (hu : u ∉ seen) (hmem : u ∈ l.map Result.url) :
    ∃ r, l.find? (fun x => x.url == u) = some r ∧ r ∈ dedupe_loop seen l := by
  induction l generalizing seen with
  | nil => simp at hmem
  | cons a rest ih =>
    by_cases hau : a.url = u
    · refine ⟨a, List.find?_cons_of_pos _ (by simp [hau]), ?_⟩
      simp only [dedupe_loop]
      split
      · exact absurd (hau ▸ ‹a.url ∈ seen›) hu
      · exact List.mem_cons_self _ _
    · have hmem' : u ∈ rest.map Result.url := by
        rcases List.mem_map.mp hmem with ⟨r, hr, hru⟩
        rcases List.mem_cons.mp hr with h1 | h2
        · exact absurd (h1 ▸ hru) hau
        · exact List.mem_map.mpr ⟨r, h2, hru⟩
      simp only [dedupe_loop]
      split
      · obtain ⟨r, hfind, hin⟩ := ih seen hu hmem'
        exact ⟨r, by rw [List.find?_cons_of_neg _ (by simp [hau]), hfind], hin⟩
      · have hu' : u ∉ a.url :: seen := by
          intro hc
          rcases List.mem_cons.mp hc with h1 | h2
          · exact hau h1.symm
          · exact hu h2
        obtain ⟨r, hfind, hin⟩ := ih _ hu' hmem'
        exact ⟨r, by rw [List.find?_cons_of_neg _ (by simp [hau]), hfind],
               List.mem_cons_of_mem _ hin⟩

/- Helper lemma: the `for term in search_terms` loop is a flat map. -/

theorem search_terms_loop_eq_flatMap (fe : FetchEnv) (ge : EnvVars) (ts : List String) :
    search_terms_loop fe ge ts = ts.flatMap (fun t => (gather_results fe ge t).1) := by
  induction ts with
  | nil => rfl
  | cons t rest ih => simp [search_terms_loop, ih]

/-- C1: the deduplication step of `research_round` produces pairwise
distinct URLs, is a sublist of its input (so every output element
occurs in the input, in the original input order), and for every URL
of the input it keeps the first occurrence of that URL. -/
theorem dedupeByUrl_spec (l : List Result) :
    ((dedupeByUrl l).map Result.url).Nodup
    ∧ List.Sublist (dedupeByUrl l) l
    ∧ (∀ u, u ∈ l.map Result.url →
        ∃ r, l.find? (fun x => x.url == u) = some r ∧ r ∈ dedupeByUrl l) :=
  ⟨dedupe_loop_nodup [] l, dedupe_loop_sublist [] l,
   fun u hmem => dedupe_loop_find [] l u (List.not_mem_nil u) hmem⟩

/-- Witness for C1 at a three-element list whose first and third
elements share a URL. -/
theorem dedupeByUrl_spec_witness :
    ((dedupeByUrl [⟨"t1", "s1", "u1", "W"⟩, ⟨"t2", "s2", "u2", "W"⟩,
        ⟨"t3", "s3", "u1", "R"⟩]).map Result.url).Nodup
    ∧ (∃ r, ([⟨"t1", "s1", "u1", "W"⟩, ⟨"t2", "s2", "u2", "W"⟩,
        ⟨"t3", "s3", "u1", "R"⟩] : List Result).find? (fun x => x.url == "u1") = some r
          ∧ r ∈ dedupeByUrl [⟨"t1", "s1", "u1", "W"⟩, ⟨"t2", "s2", "u2", "W"⟩,
              ⟨"t3", "s3", "u1", "R"⟩]) :=
  ⟨(dedupeByUrl_spec [⟨"t1", "s1", "u1", "W"⟩, ⟨"t2", "s2", "u2", "W"⟩,
      ⟨"t3", "s3", "u1", "R"⟩]).1,
   (dedupeByUrl_spec [⟨"t1", "s1", "u1", "W"⟩, ⟨"t2", "s2", "u2", "W"⟩,
      ⟨"t3", "s3", "u1", "R"⟩]).2.2 "u1" (by decide)⟩

/-- C4: the session history is append-only.  `add_round` appends exactly
one round at the end and leaves every previously stored round unchanged
in content and order; `get_context` and `get_round_count` leave the
memory object exactly as it was. -/
theorem memory_append_only (m : ResearchMemory) (q c : String)
    (rs : List Result) (a : Option String) :
    (m.add_round q c rs a).history = m.history ++ [⟨q, c, rs.length, a⟩]
    ∧ (m.add_round q c rs a).history.take m.history.length = m.history
    ∧ m.get_context.1 = m
    ∧ m.get_round_count.1 = m := by
  refine ⟨rfl, ?_, ?_, rfl⟩
  · simp [ResearchMemory.add_round]
  · unfold ResearchMemory.get_context
    split <;> rfl

/-- C6: `add_round` grows the history by exactly one entry whose
`result_count` is the length of the passed results, appends the results
(in order, duplicates included) to `all_results`, and no operation
shrinks `all_results`. -/
theorem add_round_counts (m : ResearchMemory) (q c : String)
    (rs : List Result) (a : Option String) :
    (m.add_round q c rs a).history.length = m.history.length + 1
    ∧ (m.add_round q c rs a).history.getLast? = some ⟨q, c, rs.length, a⟩
    ∧ (m.add_round q c rs a).all_results = m.all_results ++ rs
    ∧ m.all_results.length ≤ (m.add_round q c rs a).all_results.length
    ∧ m.get_context.1.all_results = m.all_results
    ∧ m.get_round_count.1.all_results = m.all_results := by
  refine ⟨by simp [ResearchMemory.add_round], ?_, rfl, by simp [ResearchMemory.add_round], ?_, rfl⟩
  · simp [ResearchMemory.add_round]
  · unfold ResearchMemory.get_context
    split <;> rfl

/-- C5: a research round is the fixed pipeline: generate terms, gather
from the sources term by term, concatenate, deduplicate by URL, hand
the deduplicated results to the LLM analysis, and append exactly one
round — carrying that analysis — to the memory. -/
theorem research_round_pipeline (ha : Bool) (ge : EnvVars) (fe : FetchEnv)
    (te : TermsEnv) (ae : AiEnv) (q : String) (m : ResearchMemory) :
    research_round ha ge fe te ae q m =
      m.add_round q (categorize_question q)
        (dedupeByUrl ((generate_search_terms ha ge te q).flatMap
          (fun t => (gather_results fe ge t).1)))
        ((analyze_with_ai ha ge ae q
          (dedupeByUrl ((generate_search_terms ha ge te q).flatMap
            (fun t => (gather_results fe ge t).1)))
          (categorize_question q) m).1)
    ∧ (research_round ha ge fe te ae q m).history.length = m.history.length + 1
    ∧ (research_round ha ge fe te ae q m).history.take m.history.length = m.history := by
  have h : research_round ha ge fe te ae q m =
      m.add_round q (categorize_question q)
        (dedupeByUrl ((generate_search_terms ha ge te q).flatMap
          (fun t => (gather_results fe ge t).1)))
        ((analyze_with_ai ha ge ae q
          (dedupeByUrl ((generate_search_terms ha ge te q).flatMap
            (fun t => (gather_results fe ge t).1)))
          (categorize_question q) m).1) := by
    unfold research_round
    simp only [search_terms_loop_eq_flatMap]
  refine ⟨h, ?_, ?_⟩ <;> rw [h] <;> simp [ResearchMemory.add_round]

/- Helper lemmas about characters, substrings and the keyword scan. -/

theorem toNat_ofNat_valid (n : Nat) (h : n < 55296) : (Char.ofNat n).toNat = n := by
  rw [Char.ofNat, dif_pos (Or.inl h : n.isValidChar)]
  simp [Char.toNat, Char.ofNatAux, UInt32.toNat]

theorem toLower_idem (c : Char) : c.toLower.toLower = c.toLower := by
  unfold Char.toLower
  by_cases h : c.toNat ≥ 65 ∧ c.toNat ≤ 90
  · rw [if_pos h]
    have h2 : (Char.ofNat (c.toNat + 32)).toNat = c.toNat + 32 :=
      toNat_ofNat_valid _ (by omega)
    rw [if_neg (by rw [h2]; omega)]
  · rw [if_neg h, if_neg h]

theorem pyLower_idem (s : String) : pyLower (pyLower s) = pyLower s := by
  apply String.ext
  simp only [pyLower, List.map_map]
  exact List.map_congr_left (fun c _ => toLower_idem c)

theorem hasInfix_iff (needle hay : List Char) :
    hasInfix needle hay = true ↔ List.IsInfix needle hay := by
  induction hay with
  | nil => cases needle <;> simp [ hasInfix, List.isPrefixOf, List.infix_nil]
  | cons c rest ih =>
    simp only [ hasInfix, Bool.or_eq_true, List.isPrefixOf_iff_prefix, ih]
    exact (List.infix_cons_iff).symm

theorem categorize_loop_eq_find (ql : String) (l : List (String × String)) :
    categorize_loop ql l =
      match l.find? (fun p => strContains ql p.1) with
      | some p => p.2
      | none => "General Business Research" := by
  induction l with
  | nil => rfl
  | cons p rest ih =>
    rcases p with ⟨k, c⟩
    rw [List.find?_cons]
    by_cases h : strContains ql k = true
    · simp [categorize_loop, h]
    · simp only [categorize_loop]
      rw [if_neg h, ih]
      have hb : strContains ql k = false := by simpa using h
      simp [hb]

/-- C8: `categorize_question` is total, returns the category of the
first keyword of the fixed table that occurs as a substring of the
lowercased question, the default category when none does, and is
case-insensitive. -/
theorem categorize_question_spec (q : String) :
    (categorize_question q =
      match categories.find? (fun p => strContains (pyLower q) p.1) with
      | some p => p.2
      | none => "General Business Research")
    ∧ (∀ kw : String, strContains (pyLower q) kw = true ↔ List.IsInfix kw.data (pyLower q).data)
    ∧ categorize_question (pyLower q) = categorize_question q := by
  refine ⟨categorize_loop_eq_find _ _, fun kw => hasInfix_iff _ _, ?_⟩
  unfold categorize_question
  rw [pyLower_idem]

/- Helper lemmas about stripping whitespace. -/

theorem dropWhile_all_iff (p : Char → Bool) (l : List Char) :
    (∀ x ∈ l.dropWhile p, p x) ↔ ∀ x ∈ l, p x := by
  constructor
  · intro h x hx
    rw [← List.takeWhile_append_dropWhile p l] at hx
    rcases List.mem_append.mp hx with h1 | h2
    · exact List.mem_takeWhile_imp h1
    · exact h x h2
  · intro h x hx
    exact h x ((List.dropWhile_sublist p).subset hx)

theorem pyStrip_eq_empty_iff (s : String) :
    pyStrip s = "" ↔ s.data.all Char.isWhitespace = true := by
  rw [String.ext_iff]
  show ((s.data.dropWhile Char.isWhitespace).reverse.dropWhile Char.isWhitespace).reverse
      = ([] : List Char) ↔ _
  rw [List.reverse_eq_nil_iff, List.dropWhile_eq_nil_iff]
  simp only [List.mem_reverse]
  rw [dropWhile_all_iff]
  simp [List.all_eq_true]

theorem reverse_splits_at_trailing (l : List Char) :
    l = (l.reverse.dropWhile Char.isWhitespace).reverse
      ++ (l.reverse.takeWhile Char.isWhitespace).reverse := by
  conv_lhs => rw [← List.reverse_reverse l,
    ← List.takeWhile_append_dropWhile Char.isWhitespace l.reverse]
  rw [List.reverse_append]

theorem pyStrip_decomp (s : String) :
    ∃ pre post : List Char,
      (∀ c ∈ pre, c.isWhitespace) ∧ (∀ c ∈ post, c.isWhitespace)
      ∧ s.data = pre ++ (pyStrip s).data ++ post := by
  refine ⟨s.data.takeWhile Char.isWhitespace,
    ((s.data.dropWhile Char.isWhitespace).reverse.takeWhile Char.isWhitespace).reverse,
    fun c hc => List.mem_takeWhile_imp hc,
    fun c hc => List.mem_takeWhile_imp (List.mem_reverse.mp hc), ?_⟩
  show s.data = _ ++ ((s.data.dropWhile Char.isWhitespace).reverse.dropWhile
      Char.isWhitespace).reverse ++ _
  rw [List.append_assoc, ← reverse_splits_at_trailing,
    List.takeWhile_append_dropWhile]

/-- C9: `get_question` returns `None` exactly when the input line is
empty or all whitespace; otherwise it returns the stripped input — the
input with an all-whitespace pre- and suffix removed, ending at
non-whitespace characters on both sides. -/
theorem get_question_spec (s : String) :
    (get_question s = none ↔ s.data.all Char.isWhitespace = true)
    ∧ (∀ t, get_question s = some t →
        t = pyStrip s
        ∧ (∃ pre post : List Char,
            (∀ c ∈ pre, c.isWhitespace) ∧ (∀ c ∈ post, c.isWhitespace)
            ∧ s.data = pre ++ t.data ++ post)
        ∧ (∀ c, t.data.head? = some c → c.isWhitespace = false)
        ∧ (∀ c, t.data.getLast? = some c → c.isWhitespace = false)) := by
  constructor
  · rw [← pyStrip_eq_empty_iff]
    unfold get_question
    constructor
    · intro h
      by_contra hne
      rw [if_neg (by simpa using hne)] at h
      exact Option.noConfusion h
    · intro h
      rw [if_pos (by simpa using h)]
  · intro t ht
    unfold get_question at ht
    by_cases he : pyStrip s == ""
    · rw [if_pos he] at ht; exact Option.noConfusion ht
    · rw [if_neg he] at ht
      have hts : t = pyStrip s := (Option.some.inj ht).symm
      subst hts
      refine ⟨rfl, pyStrip_decomp s, ?_, ?_⟩
      · intro c hc
        have hrev : (pyStrip s).data.head? =
            ((s.data.dropWhile Char.isWhitespace).reverse.dropWhile
              Char.isWhitespace).reverse.head? := rfl
        rw [hrev, List.head?_reverse] at hc
        -- the last element of the doubly-dropped list is the head of the
        -- first dropWhile, hence not whitespace
        have hne : (s.data.dropWhile Char.isWhitespace).reverse.dropWhile
            Char.isWhitespace ≠ [] := by
          intro h0
          apply (by simpa using he : ¬ pyStrip s = "")
          rw [String.ext_iff]
          show ((s.data.dropWhile Char.isWhitespace).reverse.dropWhile
            Char.isWhitespace).reverse = ([] : List Char)
          rw [h0]; rfl
        have hsplit := reverse_splits_at_trailing (s.data.dropWhile Char.isWhitespace).reverse
        -- getLast? of (dropWhile ws (rev d1)) equals getLast? of rev d1 = head? d1
        have hlast : ((s.data.dropWhile Char.isWhitespace).reverse.dropWhile
            Char.isWhitespace).getLast? = (s.data.dropWhile Char.isWhitespace).head? := by
          conv_rhs => rw [← List.getLast?_reverse,
            ← List.takeWhile_append_dropWhile Char.isWhitespace
              (s.data.dropWhile Char.isWhitespace).reverse]
          rw [List.getLast?_append]
          rcases hx : ((s.data.dropWhile Char.isWhitespace).reverse.dropWhile
              Char.isWhitespace).getLast? with _ | x
          · exact absurd (List.getLast?_eq_none_iff.mp hx) hne
          · simp [hx]
        rw [hlast] at hc
        have := List.head?_dropWhile_not Char.isWhitespace s.data
        rw [hc] at this
        exact this
      · intro c hc
        have hrev : (pyStrip s).data.getLast? =
            ((s.data.dropWhile Char.isWhitespace).reverse.dropWhile
              Char.isWhitespace).reverse.getLast? := rfl
        rw [hrev, List.getLast?_reverse] at hc
        have := List.head?_dropWhile_not Char.isWhitespace
          (s.data.dropWhile Char.isWhitespace).reverse
        rw [hc] at this
        exact this

/-- Witness for C9 at the input `"  hi "`. -/
theorem get_question_spec_witness :
    "hi" = pyStrip "  hi "
    ∧ (∃ pre post : List Char,
        (∀ c ∈ pre, c.isWhitespace) ∧ (∀ c ∈ post, c.isWhitespace)
        ∧ ("  hi " : String).data = pre ++ ("hi" : String).data ++ post)
    ∧ (∀ c, ("hi" : String).data.head? = some c → c.isWhitespace = false)
    ∧ (∀ c, ("hi" : String).data.getLast? = some c → c.isWhitespace = false) :=
  (get_question_spec "  hi ").2 "hi" (by decide)

/- Helper lemma: the loop of `get_context` is one block per round. -/

theorem context_loop_eq_mapIdx (h : List RoundData) (n : Nat) :
    context_loop n h = (h.mapIdx (fun i r => round_block (n + i) r)).foldr (· ++ ·) "" := by
  induction h generalizing n with
  | nil => rfl
  | cons r rest ih =>
    simp only [context_loop, List.mapIdx_cons, List.foldr_cons]
    have harg : (fun i r => round_block (n + (i + 1)) r)
        = (fun i r => round_block ((n + 1) + i) r) := by
      funext i r
      rw [Nat.add_comm i 1, ← Nat.add_assoc]
    rw [ih (n + 1), harg]
    simp

/-- C10: `get_context` returns the empty string exactly when the history
is empty; otherwise the fixed header followed by one `Round i` block
per stored round, numbered from 1 in insertion order; a present,
non-empty analysis contributes its first 500 characters followed by an
ellipsis. -/
theorem get_context_spec (m : ResearchMemory) :
    (m.get_context.2 = "" ↔ m.history = [])
    ∧ (m.history ≠ [] → m.get_context.2 =
        "\n\nPREVIOUS RESEARCH IN THIS SESSION:\n"
          ++ (m.history.mapIdx (fun i r => round_block (i + 1) r)).foldr (· ++ ·) "")
    ∧ (∀ i r a, r.analysis = some a → a ≠ "" →
        round_block i r =
          "\n--- Round " ++ toString i ++ " ---\n"
            ++ "Question: " ++ r.question ++ "\n"
            ++ "Category: " ++ r.category ++ "\n"
            ++ "Results found: " ++ toString r.result_count ++ "\n"
            ++ "Analysis summary: " ++ pyTake a 500 ++ "...\n") := by
  refine ⟨⟨?_, ?_⟩, ?_, ?_⟩
  · intro hc
    by_contra hne
    unfold ResearchMemory.get_context at hc
    rw [if_neg (by simpa [List.isEmpty_iff] using hne)] at hc
    simp only at hc
    have hd := congrArg String.data hc
    rw [String.data_append] at hd
    exact absurd (List.append_eq_nil.mp hd).1 (by decide)
  · intro h
    unfold ResearchMemory.get_context
    rw [if_pos (by simpa [List.isEmpty_iff] using h)]
  · intro h
    unfold ResearchMemory.get_context
    rw [if_neg (by simpa [List.isEmpty_iff] using h)]
    simp only
    rw [context_loop_eq_mapIdx m.history 1]
    have harg : (fun i r => round_block (1 + i) r) = (fun i r => round_block (i + 1) r) := by
      funext i r
      rw [Nat.add_comm]
    rw [harg]
  · intro i r a ha hne
    unfold round_block
    rw [ha]
    simp only [bne_iff_ne, ne_eq, hne, not_false_eq_true, if_true]
    simp [String.ext_iff]

/-- Witness for C10 at a one-round memory carrying a non-empty
analysis. -/
theorem get_context_spec_witness :
    (ResearchMemory.mk [⟨"q1", "General Business Research", 2, some "A"⟩] []).get_context.2 =
      "\n\nPREVIOUS RESEARCH IN THIS SESSION:\n"
        ++ (([⟨"q1", "General Business Research", 2, some "A"⟩] : List RoundData).mapIdx
            (fun i r => round_block (i + 1) r)).foldr (· ++ ·) ""
    ∧ round_block 1 ⟨"q1", "General Business Research", 2, some "A"⟩ =
        "\n--- Round " ++ toString (1 : Nat) ++ " ---\n"
          ++ "Question: " ++ "q1" ++ "\n"
          ++ "Category: " ++ "General Business Research" ++ "\n"
          ++ "Results found: " ++ toString (2 : Nat) ++ "\n"
          ++ "Analysis summary: " ++ pyTake "A" 500 ++ "...\n" :=
  ⟨(get_context_spec (ResearchMemory.mk
      [⟨"q1", "General Business Research", 2, some "A"⟩] [])).2.1 (by decide),
   (get_context_spec (ResearchMemory.mk
      [⟨"q1", "General Business Research", 2, some "A"⟩] [])).2.2 1
      ⟨"q1", "General Business Research", 2, some "A"⟩ "A" rfl (by decide)⟩

/- Helper lemmas about the 300-character truncation. -/

theorem string_length_data (s : String) : s.length = s.data.length := rfl

theorem pyTake_length_of_lt (s : String) (h : 300 < s.length) :
    (pyTake s 300).length = 300 := by
  rw [string_length_data] at h
  simp only [pyTake, String.length_mk, List.length_take]
  omega

theorem truncate300_length_le (s : String) :
    (if 300 < s.length then pyTake s 300 ++ "..." else s).length ≤ 303 := by
  split
  · rw [String.length_append, pyTake_length_of_lt s (by assumption)]
    decide
  · omega

theorem wiki_item_summary_le (env : FetchEnv) (t u : String) (r : Result)
    (h : wiki_item env t u = some r) : r.summary.length ≤ 303 := by
  unfold wiki_item at h
  split at h
  · split at h
    · obtain rfl := Option.some.inj h.symm
      exact truncate300_length_le _
    · exact Option.noConfusion h
  · exact Option.noConfusion h

theorem mem_wiki_loop (env : FetchEnv) (pairs : List (Json × Json)) (r : Result)
    (h : r ∈ (wiki_loop env pairs).1) :
    ∃ t u, wiki_item env t u = some r := by
  induction pairs with
  | nil => simp [wiki_loop] at h
  | cons p rest ih =>
    rcases p with ⟨t, u⟩
    simp only [wiki_loop] at h
    split at h
    · rename_i r0 hr0
      rcases List.mem_cons.mp h with h1 | h2
      · exact ⟨t.asStr, u.asStr, h1 ▸ hr0⟩
      · exact ih h2
    · exact ih h

theorem search_wikipedia_mem (env : FetchEnv) (q : String) (r : Result)
    (h : r ∈ (search_wikipedia env q).1) :
    ∃ t u, wiki_item env t u = some r := by
  simp only [search_wikipedia] at h
  split at h
  · simp at h
  · split at h
    · simp at h
    · exact mem_wiki_loop env _ r h

theorem news_article_summary_le (a : Json) : (news_article a).summary.length ≤ 303 := by
  simp only [news_article]
  exact truncate300_length_le _

theorem search_news_mem (env : FetchEnv) (getenv : EnvVars) (q : String) (r : Result)
    (h : r ∈ (search_news env getenv q).1) : ∃ a, r = news_article a := by
  simp only [search_news] at h
  split at h
  · simp at h
  · split at h
    · simp at h
    · split at h
      · simp at h
      · rcases List.mem_map.mp h with ⟨a, _, ha⟩
        exact ⟨a, ha.symm⟩

set_option maxRecDepth 10000 in
/-- C2 counterexample: with the DuckDuckGo response `c2_json`, the
related-topic summary is the raw 350-character text — longer than 300
and with no ellipsis — so not every source-produced summary is at most
300 characters. -/
theorem summary_truncation_cex :
    (search_duckduckgo c2_env "q").1.map (fun r => r.summary.length) = [350]
    ∧ ¬ (∀ r ∈ (search_duckduckgo c2_env "q").1, r.summary.length ≤ 300) := by
  refine ⟨rfl, ?_⟩
  intro hall
  have hm : (⟨pyTake c2_text 80, c2_text, "https://example.com/x", "DuckDuckGo"⟩ : Result)
      ∈ (search_duckduckgo c2_env "q").1 := by
    rw [show (search_duckduckgo c2_env "q").1 =
      [⟨pyTake c2_text 80, c2_text, "https://example.com/x", "DuckDuckGo"⟩] from rfl]
    exact List.mem_singleton.mpr rfl
  have hle := hall _ hm
  rw [show (⟨pyTake c2_text 80, c2_text, "https://example.com/x",
    "DuckDuckGo"⟩ : Result).summary.length = 350 from rfl] at hle
  omega

/-- C2 (amended): summaries built by `search_wikipedia`, `search_news`
and the DuckDuckGo abstract branch are at most 303 characters — the
first 300 characters of the text plus a 3-character ellipsis when the
text exceeds 300 characters, the text unchanged otherwise —
while DuckDuckGo related-topic results (and Reddit results) carry
their text without that bound. -/
theorem summary_truncation_amended :
    (∀ env q r, r ∈ (search_wikipedia env q).1 → r.summary.length ≤ 303)
    ∧ (∀ env getenv q r, r ∈ (search_news env getenv q).1 → r.summary.length ≤ 303)
    ∧ (∀ data r, r ∈ ddg_abstract data → r.summary.length ≤ 303)
    ∧ (∀ env q data, fetch_url env (ddg_url q) = some data →
        (search_duckduckgo env q).1 =
          ddg_abstract data
            ++ ddg_topics_loop ((data.getD "RelatedTopics" (Json.arr [])).asArr.take 3))
    ∧ (∀ s : String, 300 < s.length → (pyTake s 300 ++ "...").length = 303)
    ∧ (∀ s : String, ¬ 300 < s.length →
        (if 300 < s.length then pyTake s 300 ++ "..." else s) = s) := by
  refine ⟨?_, ?_, ?_, ?_, ?_, ?_⟩
  · intro env q r h
    obtain ⟨t, u, hi⟩ := search_wikipedia_mem env q r h
    exact wiki_item_summary_le env t u r hi
  · intro env getenv q r h
    obtain ⟨a, ha⟩ := search_news_mem env getenv q r h
    rw [ha]
    exact news_article_summary_le a
  · intro data r h
    unfold ddg_abstract at h
    split at h
    · obtain rfl := List.mem_singleton.mp h
      exact truncate300_length_le _
    · simp at h
  · intro env q data hf
    simp only [search_duckduckgo]
    rw [hf]
  · intro s h
    rw [String.length_append, pyTake_length_of_lt s h]
    decide
  · intro s h
    rw [if_neg h]

set_option maxRecDepth 10000 in
/-- Witness for C2 (amended): a fully successful Wikipedia round and the
exact truncated length at a 350-character text. -/
theorem summary_truncation_amended_witness :
    (⟨"T", "hello", "https://en.wikipedia.org/wiki/T", "Wikipedia"⟩ : Result).summary.length ≤ 303
    ∧ (pyTake c2_text 300 ++ "...").length = 303 :=
  ⟨summary_truncation_amended.1 w2_env "q"
      ⟨"T", "hello", "https://en.wikipedia.org/wiki/T", "Wikipedia"⟩ (by decide),
   summary_truncation_amended.2.2.2.2.1 c2_text (by decide)⟩

set_option maxRecDepth 10000 in
/-- C3 counterexample: with `c3_env` an external fetch (the summary
fetch for title `A`) raises, yet `search_wikipedia` does not return the
empty list — it returns the result for `B`. -/
theorem error_swallowing_cex :
    c3_env (wiki_summary_url "A") = Except.error "boom"
    ∧ (search_wikipedia c3_env "q").1 =
        [⟨"B", "E", "https://en.wikipedia.org/wiki/B", "Wikipedia"⟩]
    ∧ (search_wikipedia c3_env "q").1 ≠ [] := by
  refine ⟨rfl, rfl, ?_⟩
  rw [show (search_wikipedia c3_env "q").1 =
    [⟨"B", "E", "https://en.wikipedia.org/wiki/B", "Wikipedia"⟩] from rfl]
  simp

/-- C3 (amended): no raised exception propagates and no call is
retried: `fetch_url` returns `None` on a raised fetch; DuckDuckGo,
Reddit and NewsAPI return the empty list — having attempted their
single fetch exactly once — when that fetch raises, as does Wikipedia
when its opensearch fetch raises; a raised per-title Wikipedia summary
fetch only drops the result of that title; a raised LLM call makes
`analyze_with_ai` return `None`. -/
theorem error_swallowing_amended :
    (∀ env url e, env url = Except.error e → fetch_url env url = none)
    ∧ (∀ (env : FetchEnv) q e, env (ddg_url q) = Except.error e →
        search_duckduckgo env q = ([], [ddg_url q]))
    ∧ (∀ (env : FetchEnv) q e, env (reddit_url q) = Except.error e →
        search_reddit env q = ([], [reddit_url q]))
    ∧ (∀ (env : FetchEnv) (getenv : EnvVars) q key e,
        getenv "NEWSAPI_KEY" = some key → key ≠ "" →
        env (news_url q key) = Except.error e →
        search_news env getenv q = ([], [news_url q key]))
    ∧ (∀ (env : FetchEnv) q e, env (wiki_search_url q) = Except.error e →
        search_wikipedia env q = ([], [wiki_search_url q]))
    ∧ (∀ (env : FetchEnv) t u e, env (wiki_summary_url t) = Except.error e →
        wiki_item env t u = none)
    ∧ (∀ (ha : Bool) (getenv : EnvVars) (aienv : AiEnv) question results category m e,
        (∀ s u, aienv s u = Except.error e) →
        (analyze_with_ai ha getenv aienv question results category m).1 = none) := by
  refine ⟨?_, ?_, ?_, ?_, ?_, ?_, ?_⟩
  · intro env url e h
    unfold fetch_url
    rw [h]
  · intro env q e h
    unfold search_duckduckgo
    simp only [fetch_url, h]
  · intro env q e h
    unfold search_reddit
    simp only [h]
  · intro env getenv q key e hk hne h
    unfold search_news
    rw [hk]
    simp only [Option.getD_some]
    rw [if_neg (by simpa using hne)]
    simp only [fetch_url, h]
  · intro env q e h
    unfold search_wikipedia
    simp only [fetch_url, h]
  · intro env t u e h
    unfold wiki_item
    simp only [fetch_url, h]
  · intro ha getenv aienv question results category m e h
    cases ha
    · rfl
    · unfold analyze_with_ai
      simp only [Bool.not_true, Bool.false_eq_true, if_false]
      split
      · rfl
      · simp only [h]

/-- Witness for C3 (amended): each failing scenario at a concrete
always-raising network/LLM. -/
theorem error_swallowing_amended_witness :
    fetch_url (fun _ => Except.error "down") "https://example.com" = none
    ∧ search_duckduckgo (fun _ => Except.error "down") "q" = ([], [ddg_url "q"])
    ∧ search_reddit (fun _ => Except.error "down") "q" = ([], [reddit_url "q"])
    ∧ search_news (fun _ => Except.error "down") (fun _ => some "KEY") "q"
        = ([], [news_url "q" "KEY"])
    ∧ search_wikipedia (fun _ => Except.error "down") "q" = ([], [wiki_search_url "q"])
    ∧ wiki_item (fun _ => Except.error "down") "T" "U" = none
    ∧ (analyze_with_ai true (fun _ => some "KEY") (fun _ _ => Except.error "down")
        "q" [] "Cat" ⟨[], []⟩).1 = none :=
  ⟨error_swallowing_amended.1 _ _ "down" rfl,
   error_swallowing_amended.2.1 _ "q" "down" rfl,
   error_swallowing_amended.2.2.1 _ "q" "down" rfl,
   error_swallowing_amended.2.2.2.1 _ _ "q" "KEY" "down" rfl (by decide) rfl,
   error_swallowing_amended.2.2.2.2.1 _ "q" "down" rfl,
   error_swallowing_amended.2.2.2.2.2.1 _ "T" "U" "down" rfl,
   error_swallowing_amended.2.2.2.2.2.2 true _ _ "q" [] "Cat" ⟨[], []⟩ "down"
     (fun _ _ => rfl)⟩

/-- C7: with `NEWSAPI_KEY` unset or empty, `search_news` returns the
empty list and its fetch trace is empty (no outbound call); with the
anthropic package missing, or `ANTHROPIC_API_KEY` unset or empty,
`analyze_with_ai` returns `None` and sends no prompt. -/
theorem missing_credentials_degrade (fenv : FetchEnv) (aienv : AiEnv) (getenv : EnvVars)
    (ha : Bool) (q question category : String) (results : List Result) (m : ResearchMemory)
    (hn : getenv "NEWSAPI_KEY" = none ∨ getenv "NEWSAPI_KEY" = some "")
    (hk : getenv "ANTHROPIC_API_KEY" = none ∨ getenv "ANTHROPIC_API_KEY" = some "") :
    search_news fenv getenv q = ([], [])
    ∧ analyze_with_ai ha getenv aienv question results category m = (none, [])
    ∧ (∀ ge2 : EnvVars, analyze_with_ai false ge2 aienv question results category m
        = (none, [])) := by
  have hkey : (getenv "NEWSAPI_KEY").getD "" = "" := by rcases hn with h | h <;> simp [h]
  have hkey2 : (getenv "ANTHROPIC_API_KEY").getD "" = "" := by rcases hk with h | h <;> simp [h]
  refine ⟨?_, ?_, ?_⟩
  · unfold search_news
    rw [hkey]
    rfl
  · cases ha
    · rfl
    · unfold analyze_with_ai
      simp [hkey2]
  · intro ge2
    rfl

/-- Witness for C7 with every environment variable unset. -/
theorem missing_credentials_degrade_witness :
    search_news (fun _ => Except.error "offline") (fun _ => none) "q" = ([], [])
    ∧ analyze_with_ai true (fun _ => none) (fun _ _ => Except.ok "hi") "q" [] "Cat" ⟨[], []⟩
        = (none, [])
    ∧ (∀ ge2 : EnvVars, analyze_with_ai false ge2 (fun _ _ => Except.ok "hi") "q" [] "Cat"
        ⟨[], []⟩ = (none, [])) :=
  missing_credentials_degrade (fun _ => Except.error "offline") (fun _ _ => Except.ok "hi")
    (fun _ => none) true "q" "q" "Cat" [] ⟨[], []⟩ (Or.inl rfl) (Or.inl rfl)
